import Mathlib

/-
Shallow embedding of the metatools debugger control plane:
  shared/tools/debug/breakpoint.py  (Breakpoint registry and trip evaluation)
  shared/tools/debug/hijack.py      (SysHijack per-thread stream hijacking)

Python dictionaries are modelled as association lists with unique keys,
Python sets of breakpoints as duplicate-free lists of object references, and
Python object identity as natural-number references into an explicit heap held
in the class-level state.  Operations that can raise model the raised exception
in an Except value; where the source mutates state before raising, the error
value carries the partially mutated state.
-/

/-- Python exception kinds that the embedded code can raise. -/
inductive PyErr
  | typeError
  | keyError
  | attributeError
  | valueError
deriving DecidableEq, Repr

/-- Lookup in an association list (Python `d[k]` / `k in d`), returning
none when the key is absent. -/
def alookup {α β : Type} [DecidableEq α] : List (α × β) → α → Option β
  | [], _ => none
  | (k, v) :: rest, a => if k = a then some v else alookup rest a

/-- Assignment `d[k] = v` on an association list: replaces the binding in
place when the key is present, otherwise appends it. -/
def aset {α β : Type} [DecidableEq α] : List (α × β) → α → β → List (α × β)
  | [], a, b => [(a, b)]
  | (k, v) :: rest, a, b => if k = a then (a, b) :: rest else (k, v) :: aset rest a b

/-- Deletion `del d[k]` on an association list (the caller checks presence). -/
def aerase {α β : Type} [DecidableEq α] : List (α × β) → α → List (α × β)
  | [], _ => []
  | (k, v) :: rest, a => if k = a then rest else (k, v) :: aerase rest a

theorem alookup_aset_self {α β : Type} [DecidableEq α] (l : List (α × β)) (a : α) (b : β) :
    alookup (aset l a b) a = some b := by
  induction l with
  | nil => simp [aset, alookup]
  | cons hd tl ih =>
    obtain ⟨k, v⟩ := hd
    by_cases h : k = a
    · simp [aset, alookup, h]
    · simp [aset, alookup, h, ih]

theorem alookup_aset_ne {α β : Type} [DecidableEq α] (l : List (α × β)) (a a' : α) (b : β)
    (h : a ≠ a') : alookup (aset l a b) a' = alookup l a' := by
  induction l with
  | nil => simp [aset, alookup, h]
  | cons hd tl ih =>
    obtain ⟨k, v⟩ := hd
    by_cases hk : k = a
    · subst hk
      simp [aset, alookup, h]
    · simp [aset, alookup, hk, ih]

theorem alookup_eq_none {α β : Type} [DecidableEq α] (l : List (α × β)) (a : α)
    (h : ∀ p, p ∈ l → p.1 ≠ a) : alookup l a = none := by
  induction l with
  | nil => rfl
  | cons hd tl ih =>
    obtain ⟨k, v⟩ := hd
    have hk : k ≠ a := h (k, v) (List.mem_cons_self _ _)
    simp only [alookup, if_neg hk]
    exact ih fun p hp => h p (List.mem_cons_of_mem _ hp)

/-- Membership-preserving set insertion used for Python `set.add`. -/
def setAdd (l : List Nat) (r : Nat) : List Nat := if r ∈ l then l else l ++ [r]

/-- Python `set.remove` (presence is checked by the caller). -/
def setErase (l : List Nat) (r : Nat) : List Nat := l.filter (fun x => x ≠ r)

/- ==========================================================================
   shared/tools/debug/breakpoint.py
   ========================================================================== -/

/-- Second component of a breakpoint location tuple
`(filename, function_name or line_number)`: a line number (int), a function
name (str), or Python None (when the function name is empty and the line
number is None).  The three summands are pairwise unequal, exactly as Python
values of distinct types compare unequal. -/
inductive Sel
  | line (n : Int)
  | name (s : String)
  | pynone
deriving DecidableEq, Repr

/-- Location key: `(filename, selector)`. -/
abbrev Loc := String × Sel

/-- Keys of the class-level `_break_locations` dict.  Registration inserts
location tuples; `resolve_breakpoints` additionally looks the dict up with a
plain string reference, which never equals a tuple key. -/
inductive PyKey
  | strk (s : String)
  | tupk (l : Loc)
deriving DecidableEq, Repr

/-- Interested party (a Tracer/PDB instance identity). -/
abbrev Party := Nat

/-- Heap reference standing for Python object identity of a Breakpoint. -/
abbrev Ref := Nat

/-- One Breakpoint object.  `bp_id` models the `_id` slot: `none` means the
slot has never been assigned (reading it raises AttributeError). -/
structure Breakpoint where
  bp_id : Option Nat
  filename : String
  line_number : Option Int
  function_name : String
  temporary : Bool
  condition : Option String
  hits : Nat
  enabled : List (Party × Bool)
  ignored : List (Party × Int)
  note : String
deriving DecidableEq, Repr

/-- Models `Breakpoint.__init__`.  The constructor tries `int(location)`:
success yields a line breakpoint (`_function_name = ''`), a ValueError yields
a function breakpoint (`_line_number = None`); the Sum argument presents the
outcome of that dispatch. -/
def Breakpoint.init_ (filename : String) (location : Sum Int String)
    (temporary : Bool) (condition : Option String) (note : String) : Breakpoint :=
  { bp_id := none
    filename := filename
    line_number := match location with | .inl n => some n | .inr _ => none
    function_name := match location with | .inl _ => "" | .inr s => s
    temporary := temporary
    condition := condition
    hits := 0
    enabled := []
    ignored := []
    note := note }

/-- Models the `location` property:
`(self.filename, self.function_name or self.line_number)`.  An empty string is
falsy, so a line breakpoint keys by its line number; a line number of None
(function breakpoint read the other way round) would key by None. -/
def Breakpoint.location (bp : Breakpoint) : Loc :=
  (bp.filename,
   if bp.function_name ≠ "" then Sel.name bp.function_name
   else match bp.line_number with
        | some n => Sel.line n
        | none => Sel.pynone)

/-- Class-level state of the Breakpoint class: the id counter, the object
heap (Python object identities to objects), `_instances` (id to object) and
`_break_locations` (location to set of objects). -/
structure BPClass where
  id_counter : Nat
  heap : List (Ref × Breakpoint)
  instances : List (Nat × Ref)
  break_locations : List (PyKey × List Ref)
deriving DecidableEq, Repr

def BPClass.empty : BPClass := ⟨0, [], [], []⟩

/-- Allocation of a fresh Breakpoint object on the heap (Python object
construction); returns the new class state and the object's reference. -/
def BPClass.alloc (st : BPClass) (bp : Breakpoint) : BPClass × Ref :=
  ({ st with heap := st.heap ++ [(st.heap.length, bp)] }, st.heap.length)

/-- Models the classmethod `next_id`: increments `_id_counter` and returns it. -/
def Breakpoint.next_id (st : BPClass) : BPClass × Nat :=
  ({ st with id_counter := st.id_counter + 1 }, st.id_counter + 1)

/-- Models `Breakpoint._add`.  Reading an unassigned `_id` slot raises
AttributeError, which the method catches and treats as "not yet registered":
it inserts the object into `_break_locations` under its location tuple,
assigns `_id` from `next_id`, and records it in `_instances`.  When `_id` is
already assigned the method returns without touching anything (a falsy `_id`
would also fall through the `if` and change nothing). -/
def Breakpoint.add_ (st : BPClass) (r : Ref) : BPClass :=
  match alookup st.heap r with
  | none => st
  | some bp =>
    match bp.bp_id with
    | some _ => st
    | none =>
      let key := PyKey.tupk bp.location
      let st1 : BPClass :=
        { st with break_locations :=
            match alookup st.break_locations key with
            | some s => aset st.break_locations key (setAdd s r)
            | none => aset st.break_locations key [r] }
      let idc := Breakpoint.next_id st1
      let st2 := idc.1
      let newId := idc.2
      let st3 : BPClass := { st2 with heap := aset st2.heap r { bp with bp_id := some newId } }
      { st3 with instances := aset st3.instances newId r }

/-- Models `Breakpoint._remove`: clears the per-party `enabled` map, deletes
the id from `_instances`, and removes the object from the location set.  A
failing dict deletion or set removal raises KeyError; reading an unassigned
id raises AttributeError; mutations made before the raise persist and are
carried in the error value. -/
def Breakpoint.remove_ (st : BPClass) (r : Ref) : Except (PyErr × BPClass) BPClass :=
  match alookup st.heap r with
  | none => .ok st
  | some bp =>
    let bp1 := { bp with enabled := [] }
    let st1 : BPClass := { st with heap := aset st.heap r bp1 }
    match bp1.bp_id with
    | none => .error (PyErr.attributeError, st1)
    | some i =>
      match alookup st1.instances i with
      | none => .error (PyErr.keyError, st1)
      | some _ =>
        let st2 : BPClass := { st1 with instances := aerase st1.instances i }
        match alookup st2.break_locations (PyKey.tupk bp1.location) with
        | none => .error (PyErr.keyError, st2)
        | some s =>
          if r ∈ s then
            let bl := aset st2.break_locations (PyKey.tupk bp1.location) (setErase s r)
            .ok { st2 with break_locations := bl }
          else .error (PyErr.keyError, st2)

/-- Models `enable`: `self.enabled[interested_party] = True`. -/
def Breakpoint.enable (st : BPClass) (r : Ref) (party : Party) : BPClass :=
  match alookup st.heap r with
  | none => st
  | some bp => { st with heap := aset st.heap r { bp with enabled := aset bp.enabled party true } }

/-- Models `disable`: `self.enabled[interested_party] = False`. -/
def Breakpoint.disable (st : BPClass) (r : Ref) (party : Party) : BPClass :=
  match alookup st.heap r with
  | none => st
  | some bp => { st with heap := aset st.heap r { bp with enabled := aset bp.enabled party false } }

/-- Models `ignore`: `self.ignored[interested_party] = num_passes`. -/
def Breakpoint.ignore (st : BPClass) (r : Ref) (party : Party) (num_passes : Int) : BPClass :=
  match alookup st.heap r with
  | none => st
  | some bp => { st with heap := aset st.heap r { bp with ignored := aset bp.ignored party num_passes } }

/-- Reading a `defaultdict(bool)` / `defaultdict(int)` entry: the default is
returned for absent keys. -/
def lookupD {α β : Type} [DecidableEq α] (l : List (α × β)) (a : α) (dflt : β) : β :=
  (alookup l a).getD dflt

/-- Value found by a name lookup in a frame's locals or globals: a function
object (carrying `func_code.co_firstlineno`) or some non-function object, on
which accessing `func_code` raises AttributeError. -/
inductive PyVal
  | func (co_firstlineno : Int)
  | other
deriving DecidableEq, Repr

/-- Accessing `value.func_code.co_firstlineno`. -/
def PyVal.firstlineno : PyVal → Except PyErr Int
  | PyVal.func n => .ok n
  | PyVal.other => .error PyErr.attributeError

/-- Code object fields used by the breakpoint engine. -/
structure Code where
  co_filename : String
  co_name : String
deriving DecidableEq, Repr

/-- The scope `frame.f_back` that `_function_first_line` searches. -/
structure BackScope where
  f_locals : List (String × PyVal)
  f_globals : List (String × PyVal)
deriving DecidableEq, Repr

/-- Execution frame as consumed by the breakpoint engine.  `eval_cond` models
`eval(condition, frame.f_globals, frame.f_locals)`: the condition string is
evaluated against the frame's bindings and either raises or produces a value
whose truthiness is returned. -/
structure Frame where
  f_code : Code
  f_lineno : Int
  f_back : Option BackScope
  eval_cond : String → Except Unit Bool

/-- Models `Breakpoint._function_first_line`: looks the function name up in
`frame.f_back.f_locals`, catching only KeyError and falling back to
`frame.f_back.f_globals`; a missing name in both raises KeyError, an absent
`f_back` raises AttributeError (attribute access on None), and a bound
non-function raises AttributeError from `func_code`. -/
def Breakpoint.function_first_line (bp : Breakpoint) (frame : Frame) : Except PyErr Int :=
  match frame.f_back with
  | none => .error PyErr.attributeError
  | some back =>
    match alookup back.f_locals bp.function_name with
    | some v => PyVal.firstlineno v
    | none =>
      match alookup back.f_globals bp.function_name with
      | some v => PyVal.firstlineno v
      | none => .error PyErr.keyError

/-- Models `Breakpoint.trip`: a line breakpoint compares the stored line with
`frame.f_lineno`; a function breakpoint requires the frame's function name to
match and the current line to be the function's first line.  Only KeyError
from the first-line resolution is caught (returning False); any other raised
exception propagates. -/
def Breakpoint.trip (bp : Breakpoint) (frame : Frame) : Except PyErr Bool :=
  if bp.function_name = "" then
    .ok (decide (bp.line_number = some frame.f_lineno))
  else if bp.function_name ≠ frame.f_code.co_name then
    .ok false
  else
    match Breakpoint.function_first_line bp frame with
    | .ok fl => .ok (decide (frame.f_lineno = fl))
    | .error PyErr.keyError => .ok false
    | .error e => .error e

/-- Models the staticmethod `frame_location_by_line`. -/
def frame_location_by_line (frame : Frame) : Loc :=
  (frame.f_code.co_filename, Sel.line frame.f_lineno)

/-- Models the staticmethod `frame_location_by_function`. -/
def frame_location_by_function (frame : Frame) : Loc :=
  (frame.f_code.co_filename, Sel.name frame.f_code.co_name)

/-- Models the computation of `possible` inside `relevant_breakpoints`:

  possible = ( cls._break_locations.get(cls.frame_location_by_line(frame), [])
             + cls._break_locations.get(cls.frame_location_by_function(frame), []) )

The values stored in `_break_locations` are Python sets (`_add` stores
`set([self])` and extends with `set.add`), while the `.get` default is the
list `[]`.  The binary `+` is defined only when both operands are the default
empty list (no key present); a set operand on either side of `+` is
unsupported and raises TypeError. -/
def possible (st : BPClass) (frame : Frame) : Except PyErr (List Ref) :=
  match alookup st.break_locations (PyKey.tupk (frame_location_by_line frame)),
        alookup st.break_locations (PyKey.tupk (frame_location_by_function frame)) with
  | none, none => .ok []
  | _, _ => .error PyErr.typeError

/-- One iteration of the candidate loop in `relevant_breakpoints`, acting on
the class state and the accumulated `relevant` set for a single candidate
breakpoint: skip unless enabled for the asking party; skip unless the
breakpoint trips (a raising trip propagates); count the hit; then apply the
condition / ignore-count / temporary logic of the source. -/
def rbStep (frame : Frame) (party : Party) (st : BPClass) (relevant : List Ref) (r : Ref) :
    Except (PyErr × BPClass) (BPClass × List Ref) :=
  match alookup st.heap r with
  | none => .ok (st, relevant)
  | some bp =>
    if lookupD bp.enabled party false = false then .ok (st, relevant)
    else
      match Breakpoint.trip bp frame with
      | .error e => .error (e, st)
      | .ok false => .ok (st, relevant)
      | .ok true =>
        let bp1 := { bp with hits := bp.hits + 1 }
        let st1 : BPClass := { st with heap := aset st.heap r bp1 }
        match bp1.condition with
        | none =>
          if lookupD bp1.ignored party 0 > 0 then
            let bp2 := { bp1 with ignored := aset bp1.ignored party (lookupD bp1.ignored party 0 - 1) }
            .ok ({ st1 with heap := aset st1.heap r bp2 }, relevant)
          else
            if bp1.temporary then
              match Breakpoint.remove_ st1 r with
              | .error e => .error e
              | .ok st2 => .ok (st2, setAdd relevant r)
            else .ok (st1, setAdd relevant r)
        | some c =>
          match frame.eval_cond c with
          | .error _ => .ok (st1, setAdd relevant r)
          | .ok true =>
            if lookupD bp1.ignored party 0 > 0 then
              let bp2 := { bp1 with ignored := aset bp1.ignored party (lookupD bp1.ignored party 0 - 1) }
              .ok ({ st1 with heap := aset st1.heap r bp2 }, relevant)
            else
              if bp1.temporary then
                match Breakpoint.remove_ st1 r with
                | .error e => .error e
                | .ok st2 => .ok (st2, setAdd relevant r)
              else .ok (st1, setAdd relevant r)
          | .ok false => .ok (st1, relevant)

/-- The candidate loop of `relevant_breakpoints`. -/
def rbLoop (frame : Frame) (party : Party) :
    List Ref → BPClass → List Ref → Except (PyErr × BPClass) (BPClass × List Ref)
  | [], st, relevant => .ok (st, relevant)
  | r :: rest, st, relevant =>
    match rbStep frame party st relevant r with
    | .error e => .error e
    | .ok (st1, rel1) => rbLoop frame party rest st1 rel1

/-- Models the classmethod `Breakpoint.relevant_breakpoints(frame,
interested_party)`: computes the candidate collection `possible` and folds the
per-breakpoint logic over it, returning the updated class state and the
`relevant` set of firing breakpoints, or the raised exception together with
the state at the point of the raise. -/
def Breakpoint.relevant_breakpoints (st : BPClass) (frame : Frame) (party : Party) :
    Except (PyErr × BPClass) (BPClass × List Ref) :=
  match possible st frame with
  | .error e => .error (e, st)
  | .ok refs => rbLoop frame party refs st []

/-- One reference accepted by `resolve_breakpoints`: a Breakpoint instance, an
int (or long) id, a str (or unicode) location reference, or any other value
such as a `(file, selector)` location tuple, which matches none of the
isinstance branches. -/
inductive BPRef
  | inst (r : Ref)
  | idref (i : Nat)
  | strloc (s : String)
  | tupref (l : Loc)
deriving DecidableEq, Repr

/-- The loop of `resolve_breakpoints`: instances pass through, int ids are
looked up in `_instances` (KeyError when absent), strings are looked up in
`_break_locations` with plain indexing (KeyError when absent — and the keys of
that dict are location tuples, which no string equals), and any other value
falls through the isinstance chain and is silently skipped. -/
def resolveGo (st : BPClass) : List BPRef → List Ref → Except PyErr (List Ref)
  | [], acc => .ok acc
  | BPRef.inst r :: rest, acc => resolveGo st rest (acc ++ [r])
  | BPRef.idref i :: rest, acc =>
    match alookup st.instances i with
    | some r => resolveGo st rest (acc ++ [r])
    | none => .error PyErr.keyError
  | BPRef.strloc s :: rest, acc =>
    match alookup st.break_locations (PyKey.strk s) with
    | some l => resolveGo st rest (acc ++ l)
    | none => .error PyErr.keyError
  | BPRef.tupref _ :: rest, acc => resolveGo st rest acc

/-- Models the classmethod `Breakpoint.resolve_breakpoints(breakpoint_ids)`
after the initial coercion of a single reference to a one-element list. -/
def Breakpoint.resolve_breakpoints (st : BPClass) (refs : List BPRef) : Except PyErr (List Ref) :=
  resolveGo st refs []

/- ==========================================================================
   shared/tools/debug/hijack.py
   ========================================================================== -/

/-- Python object identities (stream endpoints, datetime values, thread
handles) are represented by natural numbers. -/
abbrev PyObj := Nat

/-- Mutable per-thread interpreter sys-state, as returned by
`getThreadState(thread).systemState`.  The four stream endpoints touched by
install/restore are explicit fields; every other attribute lives in `attrs`.
Modelled from the spec: `getThreadState` (shared.tools.thread) is the
ThreadStateProvider collaborator, which maps a thread handle to that thread's
mutable interpreter-visible stream state. -/
structure SysState where
  stdin : PyObj
  stdout : PyObj
  stderr : PyObj
  displayhook : PyObj
  attrs : List (String × PyObj)
deriving DecidableEq, Repr

/-- Attribute assignment `setattr(sys_state, a, v)` on the sys-state object. -/
def SysState.pysetattr (s : SysState) (a : String) (v : PyObj) : SysState :=
  if a = "stdin" then { s with stdin := v }
  else if a = "stdout" then { s with stdout := v }
  else if a = "stderr" then { s with stderr := v }
  else if a = "displayhook" then { s with displayhook := v }
  else { s with attrs := aset s.attrs a v }

/-- Attribute read `getattr(sys_state, a)`; none models AttributeError. -/
def SysState.pygetattr (s : SysState) (a : String) : Option PyObj :=
  if a = "stdin" then some s.stdin
  else if a = "stdout" then some s.stdout
  else if a = "stderr" then some s.stderr
  else if a = "displayhook" then some s.displayhook
  else alookup s.attrs a

/-- Modelled from the spec: `ProxyIO` (imported by hijack.py but defined
outside the covered sources) bundles the live proxy endpoints that the
hijacker installs in place of the originals. -/
structure IoProxy where
  stdin : PyObj
  stdout : PyObj
  stderr : PyObj
  displayhook : PyObj
deriving DecidableEq, Repr

/-- The SysHijack object: its slots hold the target thread handle, the proxy
bundle, and the four originally captured endpoints. -/
structure SysHijack where
  target_thread : PyObj
  io_proxy : IoProxy
  original_stdin : PyObj
  original_stdout : PyObj
  original_stderr : PyObj
  original_displayhook : PyObj
deriving DecidableEq, Repr

/-- Models `SysHijack._install`: writes the proxy endpoints onto the target
thread's sys-state. -/
def SysHijack.install_ (h : SysHijack) (sys : SysState) : SysState :=
  ((((sys.pysetattr "stdin" h.io_proxy.stdin).pysetattr "stdout"
      h.io_proxy.stdout).pysetattr "stderr" h.io_proxy.stderr).pysetattr
    "displayhook" h.io_proxy.displayhook)

/-- Models `SysHijack._restore`: writes the captured originals back onto the
target thread's sys-state. -/
def SysHijack.restore_ (h : SysHijack) (sys : SysState) : SysState :=
  ((((sys.pysetattr "stdin" h.original_stdin).pysetattr "stdout"
      h.original_stdout).pysetattr "stderr" h.original_stderr).pysetattr
    "displayhook" h.original_displayhook)

/-- Models `SysHijack.__init__(thread)` acting on the target thread's
sys-state `sys0`.  The slot assignments `_target_thread` and `_io_proxy`
succeed on the hijack object itself; the assignment
`self._init_time = datetime.now()` names no slot, so `object.__setattr__`
raises AttributeError and the custom `__setattr__` forwards the write to
`self._thread_sys`, the target thread's sys-state.  The four originals are
then captured from that sys-state and `_install` replaces them with the proxy
endpoints.  `now` stands for the `datetime.now()` value. -/
def SysHijack.init_ (thread : PyObj) (proxy : IoProxy) (now : PyObj) (sys0 : SysState) :
    SysHijack × SysState :=
  let sys1 := sys0.pysetattr "_init_time" now
  let h : SysHijack :=
    { target_thread := thread
      io_proxy := proxy
      original_stdin := sys1.stdin
      original_stdout := sys1.stdout
      original_stderr := sys1.stderr
      original_displayhook := sys1.displayhook }
  (h, SysHijack.install_ h sys1)

/-- Models the `stdin` property: the proxy endpoint for the target thread
itself (`Thread.currentThread() is self._target_thread`), the captured
original for any other caller.  Modelled from the spec:
`Thread.currentThread()` (shared.tools.thread) supplies the calling thread's
identity, passed here explicitly. -/
def SysHijack.stdin (h : SysHijack) (current_thread : PyObj) : PyObj :=
  if current_thread = h.target_thread then h.io_proxy.stdin else h.original_stdin

/-- Models the `stdout` property. -/
def SysHijack.stdout (h : SysHijack) (current_thread : PyObj) : PyObj :=
  if current_thread = h.target_thread then h.io_proxy.stdout else h.original_stdout

/-- Models the `stderr` property. -/
def SysHijack.stderr (h : SysHijack) (current_thread : PyObj) : PyObj :=
  if current_thread = h.target_thread then h.io_proxy.stderr else h.original_stderr

/-- Models the `displayhook` property. -/
def SysHijack.displayhook (h : SysHijack) (current_thread : PyObj) : PyObj :=
  if current_thread = h.target_thread then h.io_proxy.displayhook else h.original_displayhook

/-- Models `SysHijack.__del__`, the implicit finalizer: it simply calls
`_restore`. -/
def SysHijack.del_ (h : SysHijack) (sys : SysState) : SysState :=
  SysHijack.restore_ h sys

/-- Step one of `__getattr__`: `super(SysHijack, self).__getattr__(attribute)`.
The object base class defines no `__getattr__`, so this lookup itself raises
AttributeError for every attribute name. -/
def superGetattrFallback (_h : SysHijack) (_attrName : String) : Except PyErr PyObj :=
  .error PyErr.attributeError

/-- Step two of `__getattr__`: `getattr(self._thread_sys)`.  The builtin
`getattr` requires at least two arguments; called with only the object it
raises TypeError before performing any lookup. -/
def getattrOneArg (_sys : SysState) : Except PyErr PyObj :=
  .error PyErr.typeError

/-- Models `SysHijack.__getattr__` (invoked when normal attribute lookup on
the instance fails): the super call raises AttributeError, the handler then
evaluates `getattr(self._thread_sys)` with a single argument, raising
TypeError. -/
def SysHijack.getattr_ (h : SysHijack) (sys : SysState) (attrName : String) :
    Except PyErr PyObj :=
  match superGetattrFallback h attrName with
  | .error PyErr.attributeError => getattrOneArg sys
  | r => r

/-- Slot names on which `object.__setattr__` succeeds: the declared
`__slots__` minus `_thread_state`, whose slot descriptor is shadowed by a
read-only property (the read-only properties `stdin`, `stdout`, `stderr`,
`displayhook`, `_thread_state` and `_thread_sys` all reject writes with
AttributeError, sending those writes to the fallback as well). -/
def sysHijackSettable : List String :=
  ["_target_thread", "_io_proxy",
   "_original_stdin", "_original_stdout", "_original_stderr", "_original_displayhook"]

/-- Writing one of the settable slots on the hijack object.  The `_io_proxy`
slot stores a proxy bundle rather than a plain object; this embedding types
that slot, and no modelled code path writes it after construction, so the
write is represented as retaining the held bundle. -/
def SysHijack.setSlot (h : SysHijack) (a : String) (v : PyObj) : SysHijack :=
  if a = "_target_thread" then { h with target_thread := v }
  else if a = "_original_stdin" then { h with original_stdin := v }
  else if a = "_original_stdout" then { h with original_stdout := v }
  else if a = "_original_stderr" then { h with original_stderr := v }
  else if a = "_original_displayhook" then { h with original_displayhook := v }
  else h

/-- Models `SysHijack.__setattr__`: `super().__setattr__` succeeds exactly on
the settable slots; for every other attribute name it raises AttributeError
and the handler forwards the write to the target thread's sys-state via
`setattr(self._thread_sys, attribute, value)`. -/
def SysHijack.setattr_ (h : SysHijack) (sys : SysState) (attrName : String) (v : PyObj) :
    SysHijack × SysState :=
  if sysHijackSettable.contains attrName then (h.setSlot attrName v, sys)
  else (h, sys.pysetattr attrName v)

/- ==========================================================================
   Claim scenarios and theorems
   ========================================================================== -/

/-- Scenario for C1: a line breakpoint at ("a.py", 10), registered and
enabled for party 1. -/
def bpC1 : Breakpoint := Breakpoint.init_ "a.py" (Sum.inl 10) false none ""

def stC1 : BPClass :=
  let ar := BPClass.alloc BPClass.empty bpC1
  Breakpoint.enable (Breakpoint.add_ ar.1 ar.2) ar.2 1

def frameC1 : Frame :=
  { f_code := { co_filename := "a.py", co_name := "main" }
    f_lineno := 10
    f_back := none
    eval_cond := fun _ => Except.ok false }

/-- C1: with a line breakpoint registered at ("a.py", 10) and enabled for
party 1, `relevant_breakpoints` on a frame at ("a.py", 10) does not return
{bp} with hits = 1 for party 1 (nor the empty set for party 2): it raises
TypeError for both parties, because the candidate computation concatenates a
stored Python set with the list default of `.get` using `+`.  The state
carried by the error is the unchanged registry: hits stays 0 and nothing
fires. -/
theorem C1_relevant_breakpoints_typeerror :
    Breakpoint.relevant_breakpoints stC1 frameC1 1 = .error (PyErr.typeError, stC1) ∧
    Breakpoint.relevant_breakpoints stC1 frameC1 2 = .error (PyErr.typeError, stC1) :=
  ⟨rfl, rfl⟩

/-- Scenario for C3: a temporary function breakpoint at function "foo" of
"a.py", registered, enabled for party 1, with two trips to be ignored. -/
def bpC3 : Breakpoint := Breakpoint.init_ "a.py" (Sum.inr "foo") true none ""

def stC3 : BPClass :=
  let ar := BPClass.alloc BPClass.empty bpC3
  Breakpoint.ignore (Breakpoint.enable (Breakpoint.add_ ar.1 ar.2) ar.2 1) ar.2 1 2

def frameC3 : Frame :=
  { f_code := { co_filename := "a.py", co_name := "foo" }
    f_lineno := 5
    f_back := some { f_locals := [("foo", PyVal.func 5)], f_globals := [] }
    eval_cond := fun _ => Except.ok false }

/-- C3: the temporary breakpoint's suppressed-then-fire-then-retire cycle is
never reached: a position match for its location makes `relevant_breakpoints`
raise TypeError at the candidate computation, so no trip is ever suppressed,
the breakpoint never fires, and it is never removed — the error state still
holds it in both indices. -/
theorem C3_temporary_scenario_typeerror :
    Breakpoint.relevant_breakpoints stC3 frameC3 1 = .error (PyErr.typeError, stC3) ∧
    alookup stC3.instances 1 = some 0 ∧
    alookup stC3.break_locations (PyKey.tupk ("a.py", Sel.name "foo")) = some [0] :=
  ⟨rfl, rfl, rfl⟩

/-- Scenario for C4: a line breakpoint at ("b.py", 20), registered, enabled
for party 1, with `ignore(1, 3)` set. -/
def bpC4 : Breakpoint := Breakpoint.init_ "b.py" (Sum.inl 20) false none ""

def stC4 : BPClass :=
  let ar := BPClass.alloc BPClass.empty bpC4
  Breakpoint.ignore (Breakpoint.enable (Breakpoint.add_ ar.1 ar.2) ar.2 1) ar.2 1 3

def frameC4 : Frame :=
  { f_code := { co_filename := "b.py", co_name := "main" }
    f_lineno := 20
    f_back := none
    eval_cond := fun _ => Except.ok false }

/-- C4: after `ignore(party, 3)` no genuine trip is ever suppressed or fired:
every call of `relevant_breakpoints` at the breakpoint's position raises
TypeError at the candidate computation, before the ignore counter or the hit
counter could be touched; the error state shows hits = 0 and the ignore
counter still at 3. -/
theorem C4_ignore_scenario_typeerror :
    Breakpoint.relevant_breakpoints stC4 frameC4 1 = .error (PyErr.typeError, stC4) ∧
    (alookup stC4.heap 0).map Breakpoint.hits = some 0 ∧
    (alookup stC4.heap 0).map (fun bp => lookupD bp.ignored 1 0) = some 3 :=
  ⟨rfl, rfl, rfl⟩

/-- Scenario for C5: a conditional breakpoint at ("c.py", 30) whose condition
raises when evaluated, registered and enabled for party 1. -/
def bpC5 : Breakpoint := Breakpoint.init_ "c.py" (Sum.inl 30) false (some "x > 1") ""

def stC5 : BPClass :=
  let ar := BPClass.alloc BPClass.empty bpC5
  Breakpoint.enable (Breakpoint.add_ ar.1 ar.2) ar.2 1

def frameC5 : Frame :=
  { f_code := { co_filename := "c.py", co_name := "main" }
    f_lineno := 30
    f_back := none
    eval_cond := fun _ => Except.error () }

/-- C5: a condition that would raise during evaluation never gets evaluated:
`relevant_breakpoints` raises TypeError at the candidate computation as soon
as the breakpoint's location matches the frame, so the breakpoint is not
added to any returned firing set (no set is returned at all) and the
evaluation error cannot be absorbed. -/
theorem C5_condition_scenario_typeerror :
    Breakpoint.relevant_breakpoints stC5 frameC5 1 = .error (PyErr.typeError, stC5) :=
  rfl

/-- Scenario for C6: one line breakpoint registered at ("a.py", 10); its
assigned id is 1 and its heap reference is 0. -/
def bpC6 : Breakpoint := Breakpoint.init_ "a.py" (Sum.inl 10) false none ""

def stC6 : BPClass :=
  let ar := BPClass.alloc BPClass.empty bpC6
  Breakpoint.add_ ar.1 ar.2

/-- C6: resolving an unknown integer id fails with a lookup error (KeyError,
the concrete shape of the spec's NotFoundError), as the claim says — but
resolving a location with no registered breakpoints does not yield an empty
expansion: a string location reference is looked up with plain dict indexing
against tuple keys and raises KeyError whether or not anything is registered
there, while a tuple location reference matches no isinstance branch and is
silently skipped (so even the registered location ("a.py", 10) expands to
nothing). -/
theorem C6_resolve_unknown_raises :
    Breakpoint.resolve_breakpoints stC6 [BPRef.idref 99] = .error PyErr.keyError ∧
    Breakpoint.resolve_breakpoints stC6 [BPRef.idref 1] = .ok [0] ∧
    Breakpoint.resolve_breakpoints stC6 [BPRef.strloc "b.py"] = .error PyErr.keyError ∧
    Breakpoint.resolve_breakpoints stC6 [BPRef.strloc "a.py"] = .error PyErr.keyError ∧
    Breakpoint.resolve_breakpoints stC6 [BPRef.tupref ("no.py", Sel.line 99)] = .ok [] ∧
    Breakpoint.resolve_breakpoints stC6 [BPRef.tupref ("a.py", Sel.line 10)] = .ok [] :=
  ⟨rfl, rfl, rfl, rfl, rfl, rfl⟩

/-- Counterexample input for C2: a function breakpoint on "f", a frame inside
"f" whose caller scope binds the name "f" to a non-function value (the name is
resolved, but accessing `func_code` on the bound object fails). -/
def bpC2x : Breakpoint := Breakpoint.init_ "a.py" (Sum.inr "f") false none ""

def frameC2x : Frame :=
  { f_code := { co_filename := "a.py", co_name := "f" }
    f_lineno := 3
    f_back := some { f_locals := [("f", PyVal.other)], f_globals := [] }
    eval_cond := fun _ => Except.ok false }

/-- C2 (counterexample): resolving the function's first line can fail with an
AttributeError (the name "f" is found in the caller's locals but is bound to a
non-function), and then `trip` raises instead of returning false — only
KeyError is caught. -/
theorem C2_trip_raises_counterexample :
    Breakpoint.function_first_line bpC2x frameC2x = Except.error PyErr.attributeError ∧
    Breakpoint.trip bpC2x frameC2x = Except.error PyErr.attributeError ∧
    Breakpoint.trip bpC2x frameC2x ≠ Except.ok false :=
  ⟨rfl, rfl, fun h => Except.noConfusion h⟩

/-- C2 (amended): `trip` returns true for a line-keyed breakpoint iff the
frame's current line equals the stored line; for a function-keyed breakpoint
it returns false when the frame's function name differs, and when the name
matches and the function's first line resolves to `fl` it returns true iff
the current line is `fl`; when resolving the first line fails with a missing
name (KeyError) `trip` returns false — any other resolution failure
propagates as an exception. -/
theorem C2_trip_cases (bp : Breakpoint) (frame : Frame) :
    (bp.function_name = "" →
      Breakpoint.trip bp frame = .ok (decide (bp.line_number = some frame.f_lineno))) ∧
    (bp.function_name ≠ "" → bp.function_name ≠ frame.f_code.co_name →
      Breakpoint.trip bp frame = .ok false) ∧
    (∀ fl : Int, bp.function_name ≠ "" → bp.function_name = frame.f_code.co_name →
      Breakpoint.function_first_line bp frame = .ok fl →
      Breakpoint.trip bp frame = .ok (decide (frame.f_lineno = fl))) ∧
    (bp.function_name ≠ "" → bp.function_name = frame.f_code.co_name →
      Breakpoint.function_first_line bp frame = .error PyErr.keyError →
      Breakpoint.trip bp frame = .ok false) := by
  refine ⟨?_, ?_, ?_, ?_⟩
  · intro h
    simp [Breakpoint.trip, h]
  · intro h1 h2
    simp [Breakpoint.trip, h1, h2]
  · intro fl h1 h2 hff
    simp only [Breakpoint.trip, if_neg h1, if_neg (not_not_intro h2), hff]
  · intro h1 h2 hff
    simp only [Breakpoint.trip, if_neg h1, if_neg (not_not_intro h2), hff]

/-- Witness inputs for C2: a line breakpoint that matches its line, and a
function breakpoint exercised against a wrong-name frame, a matching entry
frame, and a frame whose caller scope cannot resolve the name. -/
def bpC2w1 : Breakpoint := Breakpoint.init_ "w.py" (Sum.inl 10) false none ""

def bpC2w2 : Breakpoint := Breakpoint.init_ "w.py" (Sum.inr "g") false none ""

def frameC2w1 : Frame :=
  { f_code := { co_filename := "w.py", co_name := "main" }
    f_lineno := 10
    f_back := none
    eval_cond := fun _ => Except.ok false }

def frameC2w2 : Frame :=
  { f_code := { co_filename := "w.py", co_name := "h" }
    f_lineno := 3
    f_back := none
    eval_cond := fun _ => Except.ok false }

def frameC2w3 : Frame :=
  { f_code := { co_filename := "w.py", co_name := "g" }
    f_lineno := 7
    f_back := some { f_locals := [("g", PyVal.func 7)], f_globals := [] }
    eval_cond := fun _ => Except.ok false }

def frameC2w4 : Frame :=
  { f_code := { co_filename := "w.py", co_name := "g" }
    f_lineno := 7
    f_back := some { f_locals := [], f_globals := [] }
    eval_cond := fun _ => Except.ok false }

/-- Witness for C2: the four amended cases evaluated at concrete inputs. -/
theorem C2_trip_cases_witness :
    Breakpoint.trip bpC2w1 frameC2w1 = Except.ok true ∧
    Breakpoint.trip bpC2w2 frameC2w2 = Except.ok false ∧
    Breakpoint.trip bpC2w2 frameC2w3 = Except.ok true ∧
    Breakpoint.trip bpC2w2 frameC2w4 = Except.ok false :=
  ⟨(C2_trip_cases bpC2w1 frameC2w1).1 rfl,
   (C2_trip_cases bpC2w2 frameC2w2).2.1 (by decide) (by decide),
   (C2_trip_cases bpC2w2 frameC2w3).2.2.1 7 (by decide) rfl rfl,
   (C2_trip_cases bpC2w2 frameC2w4).2.2.2 (by decide) rfl rfl⟩

theorem mem_setAdd (l : List Nat) (r : Nat) : r ∈ setAdd l r := by
  by_cases h : r ∈ l
  · simp [setAdd, h]
  · simp [setAdd, h]

/-- C7: registering a detached Breakpoint bumps the class counter, assigns
the object the fresh id counter+1 (strictly above every id handed out so
far, hence process-unique and monotonically increasing), inserts the object
into `_instances` under that id and into `_break_locations` under its
location, and a second registration of the now-registered instance changes
nothing. -/
theorem C7_register_spec (st : BPClass) (r : Ref) (bp : Breakpoint)
    (hr : alookup st.heap r = some bp) (hd : bp.bp_id = none)
    (hmono : ∀ p, p ∈ st.instances → p.1 ≤ st.id_counter) :
    (Breakpoint.add_ st r).id_counter = st.id_counter + 1 ∧
    alookup (Breakpoint.add_ st r).heap r = some { bp with bp_id := some (st.id_counter + 1) } ∧
    alookup (Breakpoint.add_ st r).instances (st.id_counter + 1) = some r ∧
    alookup st.instances (st.id_counter + 1) = none ∧
    (∃ s, alookup (Breakpoint.add_ st r).break_locations (PyKey.tupk bp.location) = some s ∧
      r ∈ s) ∧
    Breakpoint.add_ (Breakpoint.add_ st r) r = Breakpoint.add_ st r := by
  have hfresh : alookup st.instances (st.id_counter + 1) = none :=
    alookup_eq_none _ _ fun p hp => Nat.ne_of_lt (Nat.lt_succ_of_le (hmono p hp))
  rcases hbl : alookup st.break_locations (PyKey.tupk bp.location) with _ | s
  · have hadd : Breakpoint.add_ st r =
        { id_counter := st.id_counter + 1
          heap := aset st.heap r { bp with bp_id := some (st.id_counter + 1) }
          instances := aset st.instances (st.id_counter + 1) r
          break_locations := aset st.break_locations (PyKey.tupk bp.location) [r] } := by
      simp only [Breakpoint.add_, Breakpoint.next_id, hr, hd, hbl]
    refine ⟨by rw [hadd], by rw [hadd]; exact alookup_aset_self _ _ _,
      by rw [hadd]; exact alookup_aset_self _ _ _, hfresh,
      ⟨[r], by rw [hadd]; exact alookup_aset_self _ _ _, by simp⟩, ?_⟩
    rw [hadd, Breakpoint.add_]
    rw [show alookup (aset st.heap r { bp with bp_id := some (st.id_counter + 1) }) r =
        some { bp with bp_id := some (st.id_counter + 1) } from alookup_aset_self _ _ _]
  · have hadd : Breakpoint.add_ st r =
        { id_counter := st.id_counter + 1
          heap := aset st.heap r { bp with bp_id := some (st.id_counter + 1) }
          instances := aset st.instances (st.id_counter + 1) r
          break_locations := aset st.break_locations (PyKey.tupk bp.location) (setAdd s r) } := by
      simp only [Breakpoint.add_, Breakpoint.next_id, hr, hd, hbl]
    refine ⟨by rw [hadd], by rw [hadd]; exact alookup_aset_self _ _ _,
      by rw [hadd]; exact alookup_aset_self _ _ _, hfresh,
      ⟨setAdd s r, by rw [hadd]; exact alookup_aset_self _ _ _, mem_setAdd s r⟩, ?_⟩
    rw [hadd, Breakpoint.add_]
    rw [show alookup (aset st.heap r { bp with bp_id := some (st.id_counter + 1) }) r =
        some { bp with bp_id := some (st.id_counter + 1) } from alookup_aset_self _ _ _]

/-- Witness inputs for C7: a freshly allocated, detached line breakpoint. -/
def bpC7w : Breakpoint := Breakpoint.init_ "w7.py" (Sum.inl 4) false none ""

def stC7w : BPClass := (BPClass.alloc BPClass.empty bpC7w).1

/-- Witness for C7: the registration facts evaluated on a concrete one-object
registry. -/
theorem C7_register_spec_witness :
    alookup stC7w.heap 0 = some bpC7w ∧
    bpC7w.bp_id = none ∧
    (Breakpoint.add_ stC7w 0).id_counter = 1 ∧
    alookup (Breakpoint.add_ stC7w 0).heap 0 = some { bpC7w with bp_id := some 1 } ∧
    alookup (Breakpoint.add_ stC7w 0).instances 1 = some 0 ∧
    alookup stC7w.instances 1 = none ∧
    Breakpoint.add_ (Breakpoint.add_ stC7w 0) 0 = Breakpoint.add_ stC7w 0 := by
  have h := C7_register_spec stC7w 0 bpC7w rfl rfl
    (fun p hp => absurd hp (List.not_mem_nil p))
  exact ⟨rfl, rfl, h.1, h.2.1, h.2.2.1, h.2.2.2.1, h.2.2.2.2.2⟩

/-- The hijack object produced by constructing a SysHijack for `thread` whose
sys-state was `sys0`. -/
def hjC8 (thread : PyObj) (proxy : IoProxy) (now : PyObj) (sys0 : SysState) : SysHijack :=
  (SysHijack.init_ thread proxy now sys0).1

/-- The target thread's sys-state right after that construction. -/
def sysC8 (thread : PyObj) (proxy : IoProxy) (now : PyObj) (sys0 : SysState) : SysState :=
  (SysHijack.init_ thread proxy now sys0).2

/-- C8: after construction the four accessors return the proxy endpoints to
the target thread and the originally captured endpoints (those of the
pre-hijack sys-state) to any other thread; restoring — explicitly or through
the finalizer, once or repeatedly — leaves the target thread's four stream
fields holding exactly the pre-hijack originals, a second restore changing
nothing. -/
theorem C8_hijack_stream_identity (thread othr : PyObj) (proxy : IoProxy) (now : PyObj)
    (sys0 : SysState) (hne : othr ≠ thread) :
    SysHijack.stdin (hjC8 thread proxy now sys0) thread = proxy.stdin ∧
    SysHijack.stdout (hjC8 thread proxy now sys0) thread = proxy.stdout ∧
    SysHijack.stderr (hjC8 thread proxy now sys0) thread = proxy.stderr ∧
    SysHijack.displayhook (hjC8 thread proxy now sys0) thread = proxy.displayhook ∧
    SysHijack.stdin (hjC8 thread proxy now sys0) othr = sys0.stdin ∧
    SysHijack.stdout (hjC8 thread proxy now sys0) othr = sys0.stdout ∧
    SysHijack.stderr (hjC8 thread proxy now sys0) othr = sys0.stderr ∧
    SysHijack.displayhook (hjC8 thread proxy now sys0) othr = sys0.displayhook ∧
    (sysC8 thread proxy now sys0).stdin = proxy.stdin ∧
    (SysHijack.restore_ (hjC8 thread proxy now sys0) (sysC8 thread proxy now sys0)).stdin
      = sys0.stdin ∧
    (SysHijack.restore_ (hjC8 thread proxy now sys0) (sysC8 thread proxy now sys0)).stdout
      = sys0.stdout ∧
    (SysHijack.restore_ (hjC8 thread proxy now sys0) (sysC8 thread proxy now sys0)).stderr
      = sys0.stderr ∧
    (SysHijack.restore_ (hjC8 thread proxy now sys0) (sysC8 thread proxy now sys0)).displayhook
      = sys0.displayhook ∧
    SysHijack.del_ (hjC8 thread proxy now sys0)
        (SysHijack.restore_ (hjC8 thread proxy now sys0) (sysC8 thread proxy now sys0))
      = SysHijack.restore_ (hjC8 thread proxy now sys0) (sysC8 thread proxy now sys0) := by
  refine ⟨?_, ?_, ?_, ?_, ?_, ?_, ?_, ?_, ?_, ?_, ?_, ?_, ?_, ?_⟩ <;>
    simp [hjC8, sysC8, SysHijack.init_, SysHijack.install_, SysHijack.restore_,
      SysHijack.del_, SysHijack.stdin, SysHijack.stdout, SysHijack.stderr,
      SysHijack.displayhook, SysState.pysetattr, hne]

/-- Witness inputs for C8: thread 0 hijacked, thread 1 asking from outside,
proxy endpoints 101..104 over original endpoints 1..4. -/
def proxyC8w : IoProxy := { stdin := 101, stdout := 102, stderr := 103, displayhook := 104 }

def sysC8w : SysState := { stdin := 1, stdout := 2, stderr := 3, displayhook := 4, attrs := [] }

/-- Witness for C8: the stream-identity facts evaluated at the concrete
inputs. -/
theorem C8_hijack_stream_identity_witness :
    (1 : PyObj) ≠ 0 ∧
    SysHijack.stdin (hjC8 0 proxyC8w 7 sysC8w) 0 = 101 ∧
    SysHijack.stdin (hjC8 0 proxyC8w 7 sysC8w) 1 = 1 ∧
    SysHijack.displayhook (hjC8 0 proxyC8w 7 sysC8w) 1 = 4 ∧
    (SysHijack.restore_ (hjC8 0 proxyC8w 7 sysC8w) (sysC8 0 proxyC8w 7 sysC8w)).stdin = 1 ∧
    SysHijack.del_ (hjC8 0 proxyC8w 7 sysC8w)
        (SysHijack.restore_ (hjC8 0 proxyC8w 7 sysC8w) (sysC8 0 proxyC8w 7 sysC8w))
      = SysHijack.restore_ (hjC8 0 proxyC8w 7 sysC8w) (sysC8 0 proxyC8w 7 sysC8w) := by
  have h := C8_hijack_stream_identity 0 1 proxyC8w 7 sysC8w (by decide)
  exact ⟨by decide, h.1, h.2.2.2.2.1, h.2.2.2.2.2.2.2.1, h.2.2.2.2.2.2.2.2.2.1,
    h.2.2.2.2.2.2.2.2.2.2.2.2.2⟩

/-- Concrete hijack and sys-state for C9: the sys-state carries a "version"
attribute that a correctly forwarded read would return. -/
def hjC9 : SysHijack :=
  { target_thread := 0
    io_proxy := { stdin := 101, stdout := 102, stderr := 103, displayhook := 104 }
    original_stdin := 1
    original_stdout := 2
    original_stderr := 3
    original_displayhook := 4 }

def sysC9 : SysState :=
  { stdin := 101, stdout := 102, stderr := 103, displayhook := 104
    attrs := [("_init_time", 7), ("version", 27)] }

/-- C9: reading an attribute that is not one of SysHijack's own members does
not return the target sys-state's attribute — the fallback calls `getattr`
with a single argument and raises TypeError even though the sys-state holds
the attribute; writing a non-settable attribute is, by contrast, forwarded
onto the sys-state object as claimed. -/
theorem C9_attr_forwarding_typeerror :
    SysHijack.getattr_ hjC9 sysC9 "version" = Except.error PyErr.typeError ∧
    SysState.pygetattr sysC9 "version" = some 27 ∧
    SysHijack.setattr_ hjC9 sysC9 "version" 28 =
      (hjC9, { sysC9 with attrs := [("_init_time", 7), ("version", 28)] }) :=
  ⟨rfl, rfl, rfl⟩

/-- C10: constructing a SysHijack writes the `_init_time` timestamp onto the
target thread's sys-state object: `_init_time` is not in `__slots__`, so the
constructor's assignment falls through `__setattr__`'s AttributeError fallback
and lands on the sys-state, which afterwards carries an `_init_time`
attribute it did not have before — a mutation beyond the four stream
endpoints. -/
theorem C10_init_time_written_to_target (thread : PyObj) (proxy : IoProxy) (now : PyObj)
    (sys0 : SysState) (habsent : alookup sys0.attrs "_init_time" = none) :
    SysState.pygetattr sys0 "_init_time" = none ∧
    SysState.pygetattr (SysHijack.init_ thread proxy now sys0).2 "_init_time" = some now := by
  constructor
  · simp [SysState.pygetattr, habsent]
  · simp [SysHijack.init_, SysHijack.install_, SysState.pysetattr, SysState.pygetattr,
      alookup_aset_self]

/-- Witness inputs for C10. -/
def proxyC10w : IoProxy := { stdin := 101, stdout := 102, stderr := 103, displayhook := 104 }

def sysC10w : SysState := { stdin := 1, stdout := 2, stderr := 3, displayhook := 4, attrs := [] }

/-- Witness for C10: the leak evaluated on a concrete sys-state with no prior
`_init_time` attribute. -/
theorem C10_init_time_written_to_target_witness :
    alookup sysC10w.attrs "_init_time" = none ∧
    SysState.pygetattr sysC10w "_init_time" = none ∧
    SysState.pygetattr (SysHijack.init_ 0 proxyC10w 7 sysC10w).2 "_init_time" = some 7 := by
  have h := C10_init_time_written_to_target 0 proxyC10w 7 sysC10w rfl
  exact ⟨rfl, h.1, h.2⟩
